import Mathlib

/-!
Verification of `rust/kernel/build_assert.rs`.

The file defines two declarative macros, `build_error!` and `build_assert!`,
layered over the sentinel function `crate::build_error`.  A macro expansion is
modelled as a function from its translation-time inputs (the line number of the
expansion site, the source text captured by each metavariable) and, for
`build_assert!`, the runtime value of the condition, to the runtime `Effect`
of the expanded code: either nothing happens, or the sentinel is invoked with a
message string.

All messages are composed by `concat!` from string literals, the captured
source texts, and `stringify!($line)`.  The metavariable `$line` is not bound
by any matcher of either macro, so the transcriber emits the tokens `$ line`
literally and `stringify!` renders them as the fixed text `"$line"`,
independent of the expansion site.
-/

/-- Runtime effect of an expansion: either no action, or a call to the
sentinel `crate::build_error` carrying a message string. -/
inductive Effect where
  | nothing : Effect
  | callBuildError : String → Effect
deriving DecidableEq, Repr

/-- Whether the effect is an invocation of the sentinel. -/
def Effect.isSentinelCall : Effect → Bool
  | .nothing => false
  | .callBuildError _ => true

/-- The message handed to the sentinel, if it is invoked. -/
def Effect.message : Effect → Option String
  | .nothing => none
  | .callBuildError m => some m

/-- Rendering of `stringify!($line)` in the transcribers: `line` is not a
metavariable bound by any matcher, so the tokens `$ line` are emitted
literally and stringified to the fixed text `"$line"`. -/
def stringify_line : String := "$line"

/-- Message composed by `concat!` in the one-argument arm of `build_error!`:
`concat!("[Build Error] ", $msg, " at line: ", stringify!($line))`. -/
def err_msg1 (msg : String) : String :=
  "[Build Error] " ++ msg ++ " at line: " ++ stringify_line

/-- Message composed by `concat!` in the one-argument arm of `build_assert!`:
`concat!("assertion failed: ", stringify!($cond), " at line: ", stringify!($line))`.
`cond_text` is the source text of the condition produced by `stringify!($cond)`. -/
def assert_msg1 (cond_text : String) : String :=
  "assertion failed: " ++ cond_text ++ " at line: " ++ stringify_line

/-- Message composed by `concat!` in the two-argument arm of `build_assert!`:
`concat!($msg, " at line: ", stringify!($line))`. -/
def assert_msg2 (msg : String) : String :=
  msg ++ " at line: " ++ stringify_line

/-- Message composed by `concat!` in the three-argument arm of `build_assert!`:
`concat!($msg, " at line: ", stringify!($line), " - Context: ", $context)`. -/
def assert_msg3 (msg context : String) : String :=
  msg ++ " at line: " ++ stringify_line ++ " - Context: " ++ context

/-- Expansion of `build_error!()`: `$crate::build_error("")`.  The sentinel is
called unconditionally with the empty string.  `site_line` is the source line
of the expansion site; the transcriber does not use it. -/
def build_error0 (site_line : Nat) : Effect :=
  Effect.callBuildError ""

/-- Expansion of `build_error!($msg)`:
`$crate::build_error(concat!("[Build Error] ", $msg, " at line: ", stringify!($line)))`.
The sentinel is called unconditionally.  `site_line` is the source line of the
expansion site; the transcriber does not use it. -/
def build_error1 (site_line : Nat) (msg : String) : Effect :=
  Effect.callBuildError (err_msg1 msg)

/-- Expansion of `build_assert!($cond)`:
`if !$cond { $crate::build_error(concat!("assertion failed: ", stringify!($cond), " at line: ", stringify!($line))); }`.
`cond` is the runtime value of the condition, `cond_text` its source text. -/
def build_assert1 (site_line : Nat) (cond : Bool) (cond_text : String) : Effect :=
  if !cond then Effect.callBuildError (assert_msg1 cond_text) else Effect.nothing

/-- Expansion of `build_assert!($cond, $msg)`:
`if !$cond { $crate::build_error(concat!($msg, " at line: ", stringify!($line))); }`. -/
def build_assert2 (site_line : Nat) (cond : Bool) (msg : String) : Effect :=
  if !cond then Effect.callBuildError (assert_msg2 msg) else Effect.nothing

/-- Expansion of `build_assert!($cond, $msg, $context)`:
`if !$cond { $crate::build_error(concat!($msg, " at line: ", stringify!($line), " - Context: ", $context)); }`. -/
def build_assert3 (site_line : Nat) (cond : Bool) (msg context : String) : Effect :=
  if !cond then Effect.callBuildError (assert_msg3 msg context) else Effect.nothing

/-- The expansion of `if !cond { build_error!(msg) }`, i.e. the guard written
by hand around the one-argument error macro, for comparison with the
two-argument arm of `build_assert!`. -/
def assert_via_build_error1 (site_line : Nat) (cond : Bool) (msg : String) : Effect :=
  if !cond then build_error1 site_line msg else Effect.nothing

theorem str_append_assoc (a b c : String) : a ++ b ++ c = a ++ (b ++ c) := by
  apply String.ext
  simp [String.data_append]

theorem str_cons_append_ne (p s : String) (hp : p.data.length ≠ 0) : p ++ s ≠ s := by
  intro h
  have h2 : (p ++ s).data.length = s.data.length := by rw [h]
  rw [String.data_append, List.length_append] at h2
  omega

/-- C1: in each of the three arities of `build_assert!`, the expansion invokes
the sentinel exactly when the condition is false, and when the condition is
true the expansion has no effect at all (no sentinel call, no message). -/
theorem build_assert_sentinel_iff_cond_false
    (l : Nat) (c : Bool) (t m x : String) :
    (Effect.isSentinelCall (build_assert1 l c t) = !c)
    ∧ (Effect.isSentinelCall (build_assert2 l c m) = !c)
    ∧ (Effect.isSentinelCall (build_assert3 l c m x) = !c)
    ∧ build_assert1 l true t = Effect.nothing
    ∧ build_assert2 l true m = Effect.nothing
    ∧ build_assert3 l true m x = Effect.nothing
    ∧ Effect.message (build_assert1 l true t) = none
    ∧ Effect.message (build_assert2 l true m) = none
    ∧ Effect.message (build_assert3 l true m x) = none := by
  cases c <;>
    simp [build_assert1, build_assert2, build_assert3,
      Effect.isSentinelCall, Effect.message]

/-- C2: when the condition of the one-argument `build_assert!(cond)` is false,
the sentinel receives the message
`"assertion failed: " ++ cond_text ++ " at line: " ++ stringify_line`, which
contains the source text of the condition. -/
theorem build_assert1_false_message (l : Nat) (t : String) :
    build_assert1 l false t
      = Effect.callBuildError ("assertion failed: " ++ t ++ " at line: " ++ stringify_line)
    ∧ (∃ pre suf, assert_msg1 t = pre ++ t ++ suf) := by
  refine ⟨rfl, "assertion failed: ", " at line: " ++ stringify_line, ?_⟩
  simp [assert_msg1, str_append_assoc]

/-- C3: when the condition of the two-argument `build_assert!(cond, msg)` is
false, the sentinel receives the message
`msg ++ " at line: " ++ stringify_line`, which contains the custom message. -/
theorem build_assert2_false_message (l : Nat) (m : String) :
    build_assert2 l false m
      = Effect.callBuildError (m ++ " at line: " ++ stringify_line)
    ∧ (∃ suf, assert_msg2 m = m ++ suf) := by
  refine ⟨rfl, " at line: " ++ stringify_line, ?_⟩
  simp [assert_msg2, str_append_assoc]

/-- C4: when the condition of the three-argument
`build_assert!(cond, msg, context)` is false, the sentinel receives the
message `msg ++ " at line: " ++ stringify_line ++ " - Context: " ++ context`,
which contains both the custom message and the context string. -/
theorem build_assert3_false_message (l : Nat) (m x : String) :
    build_assert3 l false m x
      = Effect.callBuildError
          (m ++ " at line: " ++ stringify_line ++ " - Context: " ++ x)
    ∧ (∃ suf, assert_msg3 m x = m ++ suf)
    ∧ (∃ pre, assert_msg3 m x = pre ++ x) := by
  refine ⟨rfl, ⟨" at line: " ++ stringify_line ++ " - Context: " ++ x, ?_⟩,
    ⟨m ++ " at line: " ++ stringify_line ++ " - Context: ", rfl⟩⟩
  simp [assert_msg3, str_append_assoc]

/-- C5 counterexample: `build_error!()` expands to `$crate::build_error("")`,
so the message handed to the sentinel is the empty string, not a generic
default placeholder such as "no message supplied". -/
theorem build_error0_not_placeholder :
    build_error0 7 = Effect.callBuildError ""
    ∧ Effect.message (build_error0 7) = some ""
    ∧ "" ≠ "no message supplied" := by
  refine ⟨rfl, rfl, ?_⟩
  decide

/-- C5 amended: `build_error!()` calls the sentinel unconditionally, and the
message is the fixed empty string. -/
theorem build_error0_calls_sentinel_empty (l : Nat) :
    build_error0 l = Effect.callBuildError ""
    ∧ Effect.isSentinelCall (build_error0 l) = true := ⟨rfl, rfl⟩

/-- C6 counterexample: the expansion of `build_error!("overflow")` is
identical at source lines 42 and 43, and its message ends in the fixed text
"$line"; the token in the line position therefore does not represent the
source line number of the expansion site. -/
theorem build_error1_same_at_distinct_lines :
    build_error1 42 "overflow" = build_error1 43 "overflow"
    ∧ build_error1 42 "overflow"
        = Effect.callBuildError "[Build Error] overflow at line: $line"
    ∧ stringify_line ≠ "42" := by
  refine ⟨rfl, ?_, by decide⟩
  show Effect.callBuildError (err_msg1 "overflow") = _
  rw [err_msg1]
  rfl

/-- C6 amended: `build_error!(msg)` calls the sentinel unconditionally with
the concatenation of the fixed prefix tag "[Build Error] ", the user message
verbatim, the literal " at line: ", and the fixed token "$line" produced by
stringifying the unbound metavariable `line`, identical at every expansion
site. -/
theorem build_error1_message_shape (l : Nat) (m : String) :
    build_error1 l m
      = Effect.callBuildError ("[Build Error] " ++ m ++ " at line: " ++ stringify_line)
    ∧ Effect.isSentinelCall (build_error1 l m) = true
    ∧ stringify_line = "$line"
    ∧ (∀ l2 : Nat, build_error1 l m = build_error1 l2 m)
    ∧ (∃ pre suf, err_msg1 m = pre ++ m ++ suf) := by
  refine ⟨rfl, rfl, rfl, fun l2 => rfl,
    "[Build Error] ", " at line: " ++ stringify_line, ?_⟩
  simp [err_msg1, str_append_assoc]

/-- C7: in every expansion of `build_error!` and `build_assert!`, the message
handed to the sentinel is the translation-time composition of string literals
with the captured source texts (`err_msg1`, `assert_msg1`, `assert_msg2`,
`assert_msg3`); the runtime condition only selects whether the sentinel is
called and never enters the message. -/
theorem messages_fixed_at_translation_time
    (l : Nat) (c : Bool) (t m x e : String) :
    build_error0 l = Effect.callBuildError ""
    ∧ build_error1 l e = Effect.callBuildError (err_msg1 e)
    ∧ build_assert1 l c t
        = (if c then Effect.nothing else Effect.callBuildError (assert_msg1 t))
    ∧ build_assert2 l c m
        = (if c then Effect.nothing else Effect.callBuildError (assert_msg2 m))
    ∧ build_assert3 l c m x
        = (if c then Effect.nothing else Effect.callBuildError (assert_msg3 m x))
    ∧ err_msg1 e = "[Build Error] " ++ e ++ " at line: " ++ "$line"
    ∧ assert_msg1 t = "assertion failed: " ++ t ++ " at line: " ++ "$line"
    ∧ assert_msg2 m = m ++ " at line: " ++ "$line"
    ∧ assert_msg3 m x = m ++ " at line: " ++ "$line" ++ " - Context: " ++ x := by
  cases c <;>
    simp [build_error0, build_error1, build_assert1, build_assert2, build_assert3,
      err_msg1, assert_msg1, assert_msg2, assert_msg3, stringify_line]

/-- C8: message composition is deterministic: expansions of the same macro
invocation with identical arguments produce identical effects and
character-for-character identical message strings. -/
theorem expansion_deterministic
    (l1 l2 : Nat) (c1 c2 : Bool) (t1 t2 m1 m2 x1 x2 e1 e2 : String)
    (hl : l1 = l2) (hc : c1 = c2) (ht : t1 = t2) (hm : m1 = m2)
    (hx : x1 = x2) (he : e1 = e2) :
    build_error0 l1 = build_error0 l2
    ∧ build_error1 l1 e1 = build_error1 l2 e2
    ∧ build_assert1 l1 c1 t1 = build_assert1 l2 c2 t2
    ∧ build_assert2 l1 c1 m1 = build_assert2 l2 c2 m2
    ∧ build_assert3 l1 c1 m1 x1 = build_assert3 l2 c2 m2 x2
    ∧ err_msg1 e1 = err_msg1 e2
    ∧ assert_msg1 t1 = assert_msg1 t2
    ∧ assert_msg2 m1 = assert_msg2 m2
    ∧ assert_msg3 m1 x1 = assert_msg3 m2 x2 := by
  subst hl hc ht hm hx he
  exact ⟨rfl, rfl, rfl, rfl, rfl, rfl, rfl, rfl, rfl⟩

theorem expansion_deterministic_witness :
    build_error0 5 = build_error0 5
    ∧ build_error1 5 "overflow" = build_error1 5 "overflow"
    ∧ build_assert1 5 false "N > 1" = build_assert1 5 false "N > 1"
    ∧ build_assert2 5 false "bad size" = build_assert2 5 false "bad size"
    ∧ build_assert3 5 false "bad size" "in foo" = build_assert3 5 false "bad size" "in foo"
    ∧ err_msg1 "overflow" = err_msg1 "overflow"
    ∧ assert_msg1 "N > 1" = assert_msg1 "N > 1"
    ∧ assert_msg2 "bad size" = assert_msg2 "bad size"
    ∧ assert_msg3 "bad size" "in foo" = assert_msg3 "bad size" "in foo" :=
  expansion_deterministic 5 5 false false "N > 1" "N > 1" "bad size" "bad size"
    "in foo" "in foo" "overflow" "overflow" rfl rfl rfl rfl rfl rfl

/-- C9: in every message-bearing expansion, the token following " at line: "
is the fixed string "$line" obtained by stringifying the unbound metavariable
name, so the messages are identical at every expansion site, whatever its
actual line number. -/
theorem line_token_is_fixed
    (l1 l2 : Nat) (c : Bool) (t m x e : String) :
    stringify_line = "$line"
    ∧ build_error1 l1 e = build_error1 l2 e
    ∧ build_assert1 l1 c t = build_assert1 l2 c t
    ∧ build_assert2 l1 c m = build_assert2 l2 c m
    ∧ build_assert3 l1 c m x = build_assert3 l2 c m x
    ∧ err_msg1 e = ("[Build Error] " ++ e ++ " at line: ") ++ "$line"
    ∧ assert_msg1 t = ("assertion failed: " ++ t ++ " at line: ") ++ "$line"
    ∧ assert_msg2 m = (m ++ " at line: ") ++ "$line"
    ∧ assert_msg3 m x = (m ++ " at line: ") ++ "$line" ++ (" - Context: " ++ x) := by
  refine ⟨rfl, rfl, rfl, rfl, rfl, rfl, rfl, rfl, ?_⟩
  rw [assert_msg3, show stringify_line = "$line" from rfl,
    str_append_assoc (m ++ " at line: " ++ "$line") " - Context: " x]

/-- C10: the two-argument `build_assert!(cond, msg)` calls the sentinel with
`msg ++ " at line: $line"`, without the "[Build Error] " prefix, whereas the
hand-written guard `if !cond { build_error!(msg) }` calls it with that prefix
prepended; on a false condition the two expansions always differ. -/
theorem build_assert2_differs_from_guarded_build_error1 (l : Nat) (m : String) :
    build_assert2 l false m = Effect.callBuildError (assert_msg2 m)
    ∧ assert_via_build_error1 l false m = Effect.callBuildError (err_msg1 m)
    ∧ err_msg1 m = "[Build Error] " ++ assert_msg2 m
    ∧ assert_msg2 m ≠ err_msg1 m
    ∧ build_assert2 l false m ≠ assert_via_build_error1 l false m := by
  have hshape : err_msg1 m = "[Build Error] " ++ assert_msg2 m := by
    simp [err_msg1, assert_msg2, str_append_assoc]
  have hne : assert_msg2 m ≠ err_msg1 m := by
    rw [hshape]
    intro h
    exact str_cons_append_ne "[Build Error] " (assert_msg2 m) (by decide) h.symm
  refine ⟨rfl, rfl, hshape, hne, ?_⟩
  intro h
  exact hne (Effect.callBuildError.injEq _ _ ▸ h)
